import Mathlib

/-!
Shallow embedding of the `running-rs` crate's callable-execution core
(`src/callable.rs`, `src/lib.rs`).

A Rust callable handle is modelled as a function from its argument tuple to a
`HandleOutcome`: either a normal return or a panic carrying an arbitrary
payload.  `panic::catch_unwind` around the invocation is modelled by
pattern-matching on that outcome, and the payload is discarded exactly as the
source's `Err(_inner)` arm discards it.  The mutable `self` receiver of the
Rust methods is modelled by explicit state passing: each run method returns
the `Result` together with the updated `Callable` state, so that an
`Option::take` (which leaves `None` behind) is visible as a state change.
All run methods are total Lean functions, which models the fact that the
crash-isolation boundary lets the caller's subsequent code keep executing.
-/

namespace Running

/-- Outcome of invoking a raw handle: a normal return value, or an abnormal
abort (Rust panic) carrying a payload of type `P`. -/
inductive HandleOutcome (P R : Type) where
  | ret : R → HandleOutcome P R
  | panicked : P → HandleOutcome P R

/-- Rust `CallableError` from `src/callable.rs` lines 16-31.  The `backtrace`
fields are debugging metadata with no value-level content and are dropped. -/
inductive CallableError where
  | callableHandleMissing
  | callableArgumentsMissing
  | callablePanicked
deriving DecidableEq

/-- Rust `AtomicCallable` from `src/callable.rs` lines 120-129: an optional handle
and an optional argument tuple.  The handle of the `FnOnce`/`Fn` impls is a
pure function `A → HandleOutcome P R`. -/
structure AtomicCallable (A R P : Type) where
  handle : Option (A → HandleOutcome P R)
  arguments : Option A

/-- Rust `Callable` from `src/callable.rs` lines 149-157: a wrapper holding an
`AtomicCallable` (the `Deref`/`DerefMut` impls just expose that field). -/
structure Callable (A R P : Type) where
  atomic_callable : AtomicCallable A R P

/-- The general (default-specialization) `CallableCreate::new` impl,
`src/callable.rs` lines 189-193: stores the handle, leaves arguments `None`.
In Rust this impl is selected whenever the argument tuple type is not `()`. -/
def Callable.new (handle : A → HandleOutcome P R) : Callable A R P :=
  ⟨{ handle := some handle, arguments := none }⟩

/-- The general `CallableCreate::args` impl, `src/callable.rs` lines 196-199:
stores the argument tuple. -/
def Callable.args (c : Callable A R P) (arguments : A) : Callable A R P :=
  ⟨{ c.atomic_callable with arguments := some arguments }⟩

/-- The `CallableCreate<(), R, F>` specialization of `new`, `src/callable.rs`
lines 208-212: for a handle taking the empty tuple `()`, an empty argument
bundle `Some(())` is supplied at construction. -/
def Callable.newNoArgs (handle : Unit → HandleOutcome P R) : Callable Unit R P :=
  ⟨{ handle := some handle, arguments := some () }⟩

/-- Rust `RunAndReturn::run_and_return`, `FnOnce` impl, `src/callable.rs` lines
226-241.  `self.arguments.take()` is checked first (`?` short-circuits to
`CallableArgumentsMissing` leaving the state untouched, since `take` on
`None` leaves `None`); then `self.handle.take()` consumes the handle; a panic
of the handle is caught by `catch_unwind` and turned into
`CallablePanicked`, the taken handle and arguments staying consumed. -/
def Callable.run_and_return (c : Callable A R P) :
    Except CallableError R × Callable A R P :=
  match c.atomic_callable.arguments with
  | none => (Except.error CallableError.callableArgumentsMissing, c)
  | some arguments =>
    match c.atomic_callable.handle with
    | none =>
      (Except.error CallableError.callableHandleMissing,
       ⟨{ handle := none, arguments := none }⟩)
    | some handle =>
      match handle arguments with
      | HandleOutcome.ret v =>
        (Except.ok v, ⟨{ handle := none, arguments := none }⟩)
      | HandleOutcome.panicked _ =>
        (Except.error CallableError.callablePanicked,
         ⟨{ handle := none, arguments := none }⟩)

/-- Rust `RunAndReturn::run_and_return`, `Fn` impl, `src/callable.rs` lines
270-285: the arguments are still taken (moved out), but the handle is only
borrowed (`self.handle.as_mut()`), so it stays present afterwards. -/
def Callable.run_and_return_fn (c : Callable A R P) :
    Except CallableError R × Callable A R P :=
  match c.atomic_callable.arguments with
  | none => (Except.error CallableError.callableArgumentsMissing, c)
  | some arguments =>
    match c.atomic_callable.handle with
    | none =>
      (Except.error CallableError.callableHandleMissing,
       ⟨{ handle := none, arguments := none }⟩)
    | some handle =>
      match handle arguments with
      | HandleOutcome.ret v =>
        (Except.ok v, ⟨{ handle := some handle, arguments := none }⟩)
      | HandleOutcome.panicked _ =>
        (Except.error CallableError.callablePanicked,
         ⟨{ handle := some handle, arguments := none }⟩)

/-- Rust `Run::run`, `FnOnce` impl, `src/callable.rs` lines 292-308: same flow as
`run_and_return` but the handle's return value is discarded. -/
def Callable.run (c : Callable A R P) :
    Except CallableError Unit × Callable A R P :=
  match c.atomic_callable.arguments with
  | none => (Except.error CallableError.callableArgumentsMissing, c)
  | some arguments =>
    match c.atomic_callable.handle with
    | none =>
      (Except.error CallableError.callableHandleMissing,
       ⟨{ handle := none, arguments := none }⟩)
    | some handle =>
      match handle arguments with
      | HandleOutcome.ret _ =>
        (Except.ok (), ⟨{ handle := none, arguments := none }⟩)
      | HandleOutcome.panicked _ =>
        (Except.error CallableError.callablePanicked,
         ⟨{ handle := none, arguments := none }⟩)

/-- Rust `Run::run`, `Fn` impl, `src/callable.rs` lines 338-354: arguments taken,
handle borrowed and kept. -/
def Callable.run_fn (c : Callable A R P) :
    Except CallableError Unit × Callable A R P :=
  match c.atomic_callable.arguments with
  | none => (Except.error CallableError.callableArgumentsMissing, c)
  | some arguments =>
    match c.atomic_callable.handle with
    | none =>
      (Except.error CallableError.callableHandleMissing,
       ⟨{ handle := none, arguments := none }⟩)
    | some handle =>
      match handle arguments with
      | HandleOutcome.ret _ =>
        (Except.ok (), ⟨{ handle := some handle, arguments := none }⟩)
      | HandleOutcome.panicked _ =>
        (Except.error CallableError.callablePanicked,
         ⟨{ handle := some handle, arguments := none }⟩)

/-- An `FnMut` closure: captured mutable state of type `S` together with a
step function which, given the current captured state and the argument
tuple, either returns a value and the updated captured state, or panics. -/
structure MutHandle (S A R P : Type) where
  state : S
  step : S → A → HandleOutcome P (R × S)

/-- A `Callable` whose handle is an `FnMut` closure (same two-field shape as
`AtomicCallable`, with the stateful handle type). -/
structure CallableMut (S A R P : Type) where
  handle : Option (MutHandle S A R P)
  arguments : Option A

/-- Rust `RunAndReturn::run_and_return`, `FnMut` impl, `src/callable.rs` lines
248-263: arguments taken, handle borrowed mutably (`as_mut`), `call_mut`
commits the closure's captured-state update on a normal return.  On a panic
the closure stays in place; the model keeps its pre-call captured state (the
step function is atomic in the model). -/
def CallableMut.run_and_return_mut (c : CallableMut S A R P) :
    Except CallableError R × CallableMut S A R P :=
  match c.arguments with
  | none => (Except.error CallableError.callableArgumentsMissing, c)
  | some arguments =>
    match c.handle with
    | none =>
      (Except.error CallableError.callableHandleMissing,
       { c with arguments := none })
    | some h =>
      match h.step h.state arguments with
      | HandleOutcome.ret (v, s) =>
        (Except.ok v, { handle := some { h with state := s }, arguments := none })
      | HandleOutcome.panicked _ =>
        (Except.error CallableError.callablePanicked,
         { c with arguments := none })

/-- Rust `Run::run`, `FnMut` impl, `src/callable.rs` lines 315-331: as
`run_and_return_mut`, result discarded. -/
def CallableMut.run_mut (c : CallableMut S A R P) :
    Except CallableError Unit × CallableMut S A R P :=
  match c.arguments with
  | none => (Except.error CallableError.callableArgumentsMissing, c)
  | some arguments =>
    match c.handle with
    | none =>
      (Except.error CallableError.callableHandleMissing,
       { c with arguments := none })
    | some h =>
      match h.step h.state arguments with
      | HandleOutcome.ret (_, s) =>
        (Except.ok (), { handle := some { h with state := s }, arguments := none })
      | HandleOutcome.panicked _ =>
        (Except.error CallableError.callablePanicked,
         { c with arguments := none })

/-- The modulus of Rust's 64-bit `usize` arithmetic (the `AtomicUsize`
counter wraps at this bound). -/
def USIZE_MOD : Nat := 2 ^ 64

/-- Initial value of the `TASK_ID` / `TASK_ID_GENERATOR` atomic counter,
`src/lib.rs` line 49: `AtomicUsize::new(0)`. -/
def TASK_ID : Nat := 0

/-- Rust `generate_task_id`, `src/lib.rs` lines 53-55:
`TASK_ID.fetch_add(1, Ordering::Relaxed)` returns the previous counter value
and stores the incremented value (wrapping at the `usize` bound).  Modelled
by explicit state passing: input is the counter's current value, output is
the returned id together with the new counter value. -/
def generate_task_id (counter : Nat) : Nat × Nat :=
  (counter, (counter + 1) % USIZE_MOD)

/-- The ids returned by `n` sequential calls of `generate_task_id` starting
from counter value `counter`. -/
def taskIdsFrom : Nat → Nat → List Nat
  | _, 0 => []
  | counter, Nat.succ n =>
    (generate_task_id counter).fst :: taskIdsFrom (generate_task_id counter).snd n

/-- Rust `LoggingData`, `src/callable.rs` lines 39-44: string forms of a
callable's handle and arguments. -/
structure LoggingData where
  handle : String
  arguments : String

/-- Rust `LoggingFormatToken`, `src/callable.rs` lines 49-56. -/
inductive LoggingFormatToken where
  | handle
  | args
  | output
  | arbitraryString (s : String)
deriving DecidableEq

/-- Rust `LoggingFormat`, `src/callable.rs` lines 60-64: an ordered list of
format tokens (the Rust `Vec` is a Lean `List`). -/
structure LoggingFormat where
  logging_format : List LoggingFormatToken
deriving DecidableEq

/-- Rust `LoggingFormat::new`, `src/callable.rs` lines 84-86: empty token list. -/
def LoggingFormat.new : LoggingFormat :=
  { logging_format := [] }

/-- Rust `LoggingFormat::append_handle`, `src/callable.rs` lines 89-92
(`Vec::push` through `DerefMut` appends at the end). -/
def LoggingFormat.append_handle (f : LoggingFormat) : LoggingFormat :=
  { logging_format := f.logging_format ++ [LoggingFormatToken.handle] }

/-- Rust `LoggingFormat::append_args`, `src/callable.rs` lines 95-98. -/
def LoggingFormat.append_args (f : LoggingFormat) : LoggingFormat :=
  { logging_format := f.logging_format ++ [LoggingFormatToken.args] }

/-- Rust `LoggingFormat::append_output`, `src/callable.rs` lines 101-104. -/
def LoggingFormat.append_output (f : LoggingFormat) : LoggingFormat :=
  { logging_format := f.logging_format ++ [LoggingFormatToken.output] }

/-- Rust `LoggingFormat::append_string`, `src/callable.rs` lines 107-110. -/
def LoggingFormat.append_string (f : LoggingFormat) (given_string : String) :
    LoggingFormat :=
  { logging_format := f.logging_format ++ [LoggingFormatToken.arbitraryString given_string] }

/-- Rust `LoggedCallable`, `src/callable.rs` lines 431-443 (the decorator draft in
the source, kept there in commented-out form): the stored callable's fields,
its post-run `output` slot (`Option<Result<R, Box<dyn Any + Send>>>`, the
caught panic payload being opaque and modelled as `Unit`), the `task_id`, the
captured `logging_data`, and the optional `logging_format` (held by
reference in Rust, by value here). -/
structure LoggedCallable (A R P : Type) where
  handle : Option (A → HandleOutcome P R)
  arguments : Option A
  output : Option (Except Unit R)
  task_id : Nat
  logging_data : Option LoggingData
  logging_format : Option LoggingFormat

/-- Resolution of one format token, factored out of `generate_log`
(`src/callable.rs` lines 548-588, the `R: Display + Debug` specialization,
with `display` standing for `format!("\x7b\x7d", return_value)`): the handle
and arguments tokens resolve to the captured `logging_data` strings, the
output token to the displayed value of a successful stored output, and every
unavailable datum to `"N.A."`. -/
def LoggedCallable.resolveToken (c : LoggedCallable A R P) (display : R → String) :
    LoggingFormatToken → String
  | LoggingFormatToken.handle =>
    match c.logging_data with
    | some logging_data => logging_data.handle
    | none => "N.A."
  | LoggingFormatToken.args =>
    match c.logging_data with
    | some logging_data => logging_data.arguments
    | none => "N.A."
  | LoggingFormatToken.arbitraryString arbitrary_string => arbitrary_string
  | LoggingFormatToken.output =>
    match c.output with
    | some (Except.ok return_value) => display return_value
    | some (Except.error _) => "N.A."
    | none => "N.A."

/-- Rust `LoggedCallableLog::generate_log`, `src/callable.rs` lines 548-588: if a
format is set, fold over its tokens accumulating the resolved text of each
token in order; if no format was ever set, return `"N.A."` (skipping is not
an error: the function always returns a string). -/
def LoggedCallable.generate_log (c : LoggedCallable A R P) (display : R → String) :
    String :=
  match c.logging_format with
  | some logging_format =>
    logging_format.logging_format.foldl
      (fun accumulator_string token => accumulator_string ++ c.resolveToken display token)
      ""
  | none => "N.A."

/-- Rust `Runnable::run` for `LoggedCallable`, `FnOnce` impl, `src/callable.rs`
lines 666-682: inside `catch_unwind`, `arguments.take().expect(..)` always
clears the arguments and panics (caught) when they are absent; then
`handle.take().expect(..)` clears the handle (reached only when arguments
were present) and panics (caught) when it is absent; otherwise the handle is
invoked.  `generate_log` runs before the outcome is stored into `output`.
The generated log line, which the draft discards, is returned alongside the
updated state. -/
def LoggedCallable.run (c : LoggedCallable A R P) (display : R → String) :
    LoggedCallable A R P × String :=
  let result : Except Unit R :=
    match c.arguments with
    | none => Except.error ()
    | some arguments =>
      match c.handle with
      | none => Except.error ()
      | some handle =>
        match handle arguments with
        | HandleOutcome.ret v => Except.ok v
        | HandleOutcome.panicked _ => Except.error ()
  let handle1 : Option (A → HandleOutcome P R) :=
    match c.arguments with
    | none => c.handle
    | some _ => none
  let c1 := { c with arguments := none, handle := handle1 }
  let log_line := c1.generate_log display
  ({ c1 with output := some result }, log_line)

/-- One call of the `LoggingFormat` builder, used to describe an arbitrary
sequence of append calls. -/
inductive AppendOp where
  | opHandle
  | opArgs
  | opOutput
  | opString (s : String)
deriving DecidableEq

/-- The builder method a given `AppendOp` stands for. -/
def applyAppendOp (f : LoggingFormat) : AppendOp → LoggingFormat
  | AppendOp.opHandle => f.append_handle
  | AppendOp.opArgs => f.append_args
  | AppendOp.opOutput => f.append_output
  | AppendOp.opString s => f.append_string s

/-- Applying a sequence of builder calls in order. -/
def applyAppendOps (f : LoggingFormat) (ops : List AppendOp) : LoggingFormat :=
  ops.foldl applyAppendOp f

/-- The token each builder call appends. -/
def AppendOp.token : AppendOp → LoggingFormatToken
  | AppendOp.opHandle => LoggingFormatToken.handle
  | AppendOp.opArgs => LoggingFormatToken.args
  | AppendOp.opOutput => LoggingFormatToken.output
  | AppendOp.opString s => LoggingFormatToken.arbitraryString s

/-- A lemma shared by the proofs below: the builder methods only ever append
at the end, so applying a sequence of builder calls appends the matching
tokens, in call order, to the existing list. -/
theorem applyAppendOps_logging_format (ops : List AppendOp) :
    ∀ f : LoggingFormat,
      (applyAppendOps f ops).logging_format
        = f.logging_format ++ ops.map AppendOp.token := by
  induction ops with
  | nil => intro f; simp [applyAppendOps]
  | cons op rest ih =>
    intro f
    have h1 : applyAppendOps f (op :: rest) = applyAppendOps (applyAppendOp f op) rest := rfl
    rw [h1, ih]
    cases op <;>
      simp [applyAppendOp, LoggingFormat.append_handle, LoggingFormat.append_args,
        LoggingFormat.append_output, LoggingFormat.append_string, AppendOp.token]

/-- A lemma shared by the proofs below: a left fold that appends the image of
each element to the accumulator equals the accumulator followed by the
concatenation, in sequence, of the images. -/
theorem foldl_append_eq_concat (g : LoggingFormatToken → String)
    (ts : List LoggingFormatToken) :
    ∀ accumulator : String,
      ts.foldl (fun accumulator_string token => accumulator_string ++ g token) accumulator
        = accumulator ++ (ts.map g).foldr (· ++ ·) "" := by
  induction ts with
  | nil => intro accumulator; simp
  | cons t rest ih =>
    intro accumulator
    simp only [List.foldl_cons, List.map_cons, List.foldr_cons, ih,
      String.append_assoc]

-- Concrete example values used by the witnesses.

/-- Example handle: the successor function on naturals, never panicking. -/
def succHandle : Nat → HandleOutcome Unit Nat :=
  fun n => HandleOutcome.ret (n + 1)

/-- Example handle that always panics. -/
def panicHandle : Nat → HandleOutcome Unit Nat :=
  fun _ => HandleOutcome.panicked ()

/-- Example handle taking the empty tuple. -/
def unitHandle : Unit → HandleOutcome Unit Nat :=
  fun _ => HandleOutcome.ret 42

/-- A callable armed with `succHandle` and argument `3`. -/
def armedSucc : Callable Nat Nat Unit :=
  (Callable.new succHandle).args 3

/-- A callable armed with `panicHandle` and argument `3`. -/
def armedPanic : Callable Nat Nat Unit :=
  (Callable.new panicHandle).args 3

/-- Example `FnMut` closure: accumulates the argument into its captured
state and returns the argument. -/
def accumHandle : MutHandle Nat Nat Nat Unit :=
  { state := 0, step := fun s a => HandleOutcome.ret (a, s + a) }

/-- A mutable-handle callable armed with `accumHandle` and argument `5`. -/
def armedAccum : CallableMut Nat Nat Nat Unit :=
  { handle := some accumHandle, arguments := some 5 }

/-- A mutable-handle callable with `accumHandle` but no arguments. -/
def unarmedAccum : CallableMut Nat Nat Nat Unit :=
  { handle := some accumHandle, arguments := none }

/-- A logged callable armed with `succHandle` and argument `3`, with no
logging format set. -/
def loggedEx : LoggedCallable Nat Nat Unit :=
  { handle := some succHandle, arguments := some 3, output := none,
    task_id := 0,
    logging_data := some { handle := "succ", arguments := "3" },
    logging_format := none }

-- Claim theorems.

/-- C1: for every callable handle that panics when invoked, `run` (and
`run_and_return`) on a `Callable` armed with that handle and its arguments
returns `Err(CallablePanicked)` instead of propagating the panic — the run
methods are total functions returning a `Result`, so the caller's subsequent
code continues to execute — and the panic payload `p` does not appear in the
result. -/
theorem crash_containment (A R P : Type) (c : Callable A R P)
    (f : A → HandleOutcome P R) (a : A) (p : P)
    (hh : c.atomic_callable.handle = some f)
    (ha : c.atomic_callable.arguments = some a)
    (hp : f a = HandleOutcome.panicked p) :
    c.run.fst = Except.error CallableError.callablePanicked
    ∧ c.run_and_return.fst = Except.error CallableError.callablePanicked := by
  simp [Callable.run, Callable.run_and_return, hh, ha, hp]

/-- Witness for C1 at the concrete panicking callable `armedPanic`. -/
theorem crash_containment_witness :
    armedPanic.run.fst = Except.error CallableError.callablePanicked
    ∧ armedPanic.run_and_return.fst = Except.error CallableError.callablePanicked :=
  crash_containment Nat Nat Unit armedPanic panicHandle 3 () rfl rfl rfl

/-- C2: for every `Callable` (the `FnOnce` variant) on which a first `run` or
`run_and_return` invocation completed (the unit was armed: handle and
arguments both present), the resulting state has no handle left to invoke,
and a second `run` or `run_and_return` returns
`Err(CallableArgumentsMissing)` — an error, never a fresh `Ok`. -/
theorem at_most_once (A R P : Type) (c : Callable A R P)
    (f : A → HandleOutcome P R) (a : A)
    (hh : c.atomic_callable.handle = some f)
    (ha : c.atomic_callable.arguments = some a) :
    (c.run_and_return.snd.atomic_callable.handle = none
      ∧ c.run_and_return.snd.run_and_return.fst
          = Except.error CallableError.callableArgumentsMissing
      ∧ c.run_and_return.snd.run.fst
          = Except.error CallableError.callableArgumentsMissing)
    ∧ (c.run.snd.atomic_callable.handle = none
      ∧ c.run.snd.run_and_return.fst
          = Except.error CallableError.callableArgumentsMissing
      ∧ c.run.snd.run.fst
          = Except.error CallableError.callableArgumentsMissing) := by
  cases hfa : f a <;>
    simp [Callable.run, Callable.run_and_return, hh, ha, hfa]

/-- Witness for C2 at the concrete armed callable `armedSucc`. -/
theorem at_most_once_witness :
    (armedSucc.run_and_return.snd.atomic_callable.handle = none
      ∧ armedSucc.run_and_return.snd.run_and_return.fst
          = Except.error CallableError.callableArgumentsMissing
      ∧ armedSucc.run_and_return.snd.run.fst
          = Except.error CallableError.callableArgumentsMissing)
    ∧ (armedSucc.run.snd.atomic_callable.handle = none
      ∧ armedSucc.run.snd.run_and_return.fst
          = Except.error CallableError.callableArgumentsMissing
      ∧ armedSucc.run.snd.run.fst
          = Except.error CallableError.callableArgumentsMissing) :=
  at_most_once Nat Nat Unit armedSucc succHandle 3 rfl rfl

/-- C3: for every handle that deterministically returns `v` on arguments
`a`, a fresh `Callable` built with `new` and armed with `args a` returns
`Ok v` from `run_and_return` on its first invocation, and a second
invocation on the resulting state fails. -/
theorem round_trip_return (A R P : Type) (f : A → HandleOutcome P R)
    (a : A) (v : R) (hv : f a = HandleOutcome.ret v) :
    ((Callable.new f).args a).run_and_return.fst = Except.ok v
    ∧ ((Callable.new f).args a).run_and_return.snd.run_and_return.fst
        = Except.error CallableError.callableArgumentsMissing := by
  simp [Callable.new, Callable.args, Callable.run_and_return, hv]

/-- Witness for C3 at the concrete handle `succHandle` with argument `3`. -/
theorem round_trip_return_witness :
    ((Callable.new succHandle).args 3).run_and_return.fst = Except.ok 4
    ∧ ((Callable.new succHandle).args 3).run_and_return.snd.run_and_return.fst
        = Except.error CallableError.callableArgumentsMissing :=
  round_trip_return Nat Nat Unit succHandle 3 4 rfl

/-- C4: a `Callable` built by the general `new` (the impl selected for a
handle requiring a non-empty argument tuple), with `args` never called,
returns `Err(CallableArgumentsMissing)` from `run` (and from
`run_and_return`). -/
theorem missing_arguments_precondition (A R P : Type)
    (f : A → HandleOutcome P R) :
    (Callable.new f).run.fst = Except.error CallableError.callableArgumentsMissing
    ∧ (Callable.new f).run_and_return.fst
        = Except.error CallableError.callableArgumentsMissing := by
  simp [Callable.new, Callable.run, Callable.run_and_return]

/-- C5: for a handle whose argument tuple is `()`, the specialized `new`
supplies the empty argument bundle at construction, so the unit is
immediately runnable: `run` succeeds (and `run_and_return` returns the
handle's value) without `args` ever being called. -/
theorem no_args_immediately_runnable (R P : Type)
    (f : Unit → HandleOutcome P R) (v : R)
    (hv : f () = HandleOutcome.ret v) :
    (Callable.newNoArgs f).atomic_callable.arguments = some ()
    ∧ (Callable.newNoArgs f).run.fst = Except.ok ()
    ∧ (Callable.newNoArgs f).run_and_return.fst = Except.ok v := by
  simp [Callable.newNoArgs, Callable.run, Callable.run_and_return, hv]

/-- Witness for C5 at the concrete no-argument handle `unitHandle`. -/
theorem no_args_immediately_runnable_witness :
    (Callable.newNoArgs unitHandle).atomic_callable.arguments = some ()
    ∧ (Callable.newNoArgs unitHandle).run.fst = Except.ok ()
    ∧ (Callable.newNoArgs unitHandle).run_and_return.fst = Except.ok 42 :=
  no_args_immediately_runnable Nat Unit unitHandle 42 rfl

/-- C6 counterexample: the claim says that for a repeatable (`Fn`) handle
the argument bundle is cloned rather than moved out, remaining present
after a successful run so the unit can be invoked again.  At the concrete
`Fn` callable `armedSucc` the first `run_and_return` (the `Fn` impl)
succeeds with `Ok 4`, but the arguments are `none` afterwards and a second
invocation fails with `Err(CallableArgumentsMissing)`. -/
theorem fn_arguments_cloned_counterexample :
    armedSucc.run_and_return_fn.fst = Except.ok 4
    ∧ armedSucc.run_and_return_fn.snd.atomic_callable.arguments = none
    ∧ armedSucc.run_and_return_fn.snd.run_and_return_fn.fst
        = Except.error CallableError.callableArgumentsMissing :=
  ⟨rfl, rfl, rfl⟩

/-- C6 amended: for the repeatable (`Fn` / `FnMut`) impls the handle is
borrowed rather than moved at invocation time, so after a successful run the
handle remains present (with its updated captured state for `FnMut`); the
argument bundle, however, is still moved out (`Option::take`), so a second
invocation without re-supplying arguments fails with
`Err(CallableArgumentsMissing)`. -/
theorem repeatable_handle_kept_arguments_consumed (A R S P : Type)
    (c : Callable A R P) (m : CallableMut S A R P)
    (f : A → HandleOutcome P R) (a : A) (v : R)
    (mh : MutHandle S A R P) (b : A) (w : R) (s : S)
    (hh : c.atomic_callable.handle = some f)
    (ha : c.atomic_callable.arguments = some a)
    (hv : f a = HandleOutcome.ret v)
    (hmh : m.handle = some mh)
    (hma : m.arguments = some b)
    (hw : mh.step mh.state b = HandleOutcome.ret (w, s)) :
    (c.run_and_return_fn.fst = Except.ok v
      ∧ c.run_and_return_fn.snd.atomic_callable.handle = some f
      ∧ c.run_and_return_fn.snd.atomic_callable.arguments = none
      ∧ c.run_and_return_fn.snd.run_and_return_fn.fst
          = Except.error CallableError.callableArgumentsMissing)
    ∧ (m.run_mut.fst = Except.ok ()
      ∧ m.run_mut.snd.handle = some { mh with state := s }
      ∧ m.run_mut.snd.arguments = none
      ∧ m.run_mut.snd.run_mut.fst
          = Except.error CallableError.callableArgumentsMissing) := by
  refine ⟨?_, ?_⟩ <;>
    simp [Callable.run_and_return_fn, CallableMut.run_mut, hh, ha, hv, hmh, hma, hw]

/-- Witness for the amended C6 at the concrete callables `armedSucc` (`Fn`)
and `armedAccum` (`FnMut`). -/
theorem repeatable_handle_kept_arguments_consumed_witness :
    (armedSucc.run_and_return_fn.fst = Except.ok 4
      ∧ armedSucc.run_and_return_fn.snd.atomic_callable.handle = some succHandle
      ∧ armedSucc.run_and_return_fn.snd.atomic_callable.arguments = none
      ∧ armedSucc.run_and_return_fn.snd.run_and_return_fn.fst
          = Except.error CallableError.callableArgumentsMissing)
    ∧ (armedAccum.run_mut.fst = Except.ok ()
      ∧ armedAccum.run_mut.snd.handle = some { accumHandle with state := 5 }
      ∧ armedAccum.run_mut.snd.arguments = none
      ∧ armedAccum.run_mut.snd.run_mut.fst
          = Except.error CallableError.callableArgumentsMissing) :=
  repeatable_handle_kept_arguments_consumed Nat Nat Nat Unit
    armedSucc armedAccum succHandle 3 4 accumHandle 5 5 5 rfl rfl rfl rfl rfl rfl

/-- C7: whenever the arguments are absent, every run variant returns
`Err(CallableArgumentsMissing)` and leaves the state — in particular the
handle — untouched; since the argument check precedes the handle check in
every variant, this is the reported failure even when the handle is also
absent. -/
theorem arguments_check_precedes_handle_check (A R S P : Type)
    (c : Callable A R P) (m : CallableMut S A R P)
    (hc : c.atomic_callable.arguments = none)
    (hm : m.arguments = none) :
    c.run_and_return = (Except.error CallableError.callableArgumentsMissing, c)
    ∧ c.run = (Except.error CallableError.callableArgumentsMissing, c)
    ∧ c.run_and_return_fn = (Except.error CallableError.callableArgumentsMissing, c)
    ∧ c.run_fn = (Except.error CallableError.callableArgumentsMissing, c)
    ∧ m.run_and_return_mut = (Except.error CallableError.callableArgumentsMissing, m)
    ∧ m.run_mut = (Except.error CallableError.callableArgumentsMissing, m) := by
  simp [Callable.run_and_return, Callable.run, Callable.run_and_return_fn,
    Callable.run_fn, CallableMut.run_and_return_mut, CallableMut.run_mut, hc, hm]

/-- Witness for C7 at a handle-present argument-free callable and mutable
callable (and, through the same state, the handle stays present). -/
theorem arguments_check_precedes_handle_check_witness :
    (Callable.new succHandle).run_and_return
        = (Except.error CallableError.callableArgumentsMissing, Callable.new succHandle)
    ∧ (Callable.new succHandle).run
        = (Except.error CallableError.callableArgumentsMissing, Callable.new succHandle)
    ∧ (Callable.new succHandle).run_and_return_fn
        = (Except.error CallableError.callableArgumentsMissing, Callable.new succHandle)
    ∧ (Callable.new succHandle).run_fn
        = (Except.error CallableError.callableArgumentsMissing, Callable.new succHandle)
    ∧ unarmedAccum.run_and_return_mut
        = (Except.error CallableError.callableArgumentsMissing, unarmedAccum)
    ∧ unarmedAccum.run_mut
        = (Except.error CallableError.callableArgumentsMissing, unarmedAccum) :=
  arguments_check_precedes_handle_check Nat Nat Nat Unit
    (Callable.new succHandle) unarmedAccum rfl rfl

/-- A lemma shared by the proofs below: as long as the counter does not
reach the wraparound bound, the ids of `n` sequential calls starting at
`counter` are `counter, counter + 1, ...`. -/
theorem taskIdsFrom_eq_range' (n : Nat) :
    ∀ counter : Nat, counter + n ≤ USIZE_MOD →
      taskIdsFrom counter n = List.range' counter n := by
  induction n with
  | zero => intro counter _; rfl
  | succ k ih =>
    intro counter h
    have h0 : taskIdsFrom counter (k + 1)
        = counter :: taskIdsFrom ((counter + 1) % USIZE_MOD) k := by
      simp [taskIdsFrom, generate_task_id]
    rw [h0, List.range'_succ]
    cases k with
    | zero => rfl
    | succ j =>
      have h1 : counter + 1 < USIZE_MOD := by omega
      rw [Nat.mod_eq_of_lt h1]
      exact congrArg (counter :: ·) (ih (counter + 1) (by omega))

/-- C8: calling `generate_task_id` `n` times sequentially from the initial
counter value yields pairwise-distinct, strictly increasing ids: every call
returns a value strictly greater than all previously returned ones.  The
hypothesis `n ≤ USIZE_MOD` excludes counter wraparound, which the spec
places out of scope. -/
theorem task_id_strict_mono (n : Nat) (h : n ≤ USIZE_MOD) :
    (taskIdsFrom TASK_ID n).Pairwise (· < ·)
    ∧ (taskIdsFrom TASK_ID n).Nodup := by
  have he : taskIdsFrom TASK_ID n = List.range n := by
    have h0 : TASK_ID + n ≤ USIZE_MOD := by simpa [TASK_ID] using h
    rw [taskIdsFrom_eq_range' n TASK_ID h0, TASK_ID, List.range_eq_range']
  rw [he]
  exact ⟨List.sorted_lt_range n, List.nodup_range n⟩

/-- Witness for C8 at three sequential calls. -/
theorem task_id_strict_mono_witness :
    (taskIdsFrom TASK_ID 3).Pairwise (· < ·)
    ∧ (taskIdsFrom TASK_ID 3).Nodup :=
  task_id_strict_mono 3 (by norm_num [USIZE_MOD])

/-- C9: for a handle that succeeds with value `v`, running it through a
`LoggedCallable` with no format spec set stores `Ok v` — identical to the
undecorated `Callable`'s `run_and_return` result on the same handle and
arguments — while the generated log line is just the skip marker `"N.A."`:
skipping is not an error (log generation has no error channel) and does not
alter the run's result. -/
theorem logging_noninterference (A R P : Type) (c : LoggedCallable A R P)
    (display : R → String) (f : A → HandleOutcome P R) (a : A) (v : R)
    (hh : c.handle = some f) (ha : c.arguments = some a)
    (hv : f a = HandleOutcome.ret v)
    (hfmt : c.logging_format = none) :
    (c.run display).fst.output = some (Except.ok v)
    ∧ (Callable.mk { handle := some f, arguments := some a }).run_and_return.fst
        = Except.ok v
    ∧ (c.run display).snd = "N.A." := by
  simp [LoggedCallable.run, LoggedCallable.generate_log, Callable.run_and_return,
    hh, ha, hv, hfmt]

/-- Witness for C9 at the concrete format-free logged callable `loggedEx`. -/
theorem logging_noninterference_witness :
    (loggedEx.run toString).fst.output = some (Except.ok 4)
    ∧ (Callable.mk { handle := some succHandle, arguments := some 3 }).run_and_return.fst
        = Except.ok 4
    ∧ (loggedEx.run toString).snd = "N.A." :=
  logging_noninterference Nat Nat Unit loggedEx toString succHandle 3 4
    rfl rfl rfl rfl

/-- C10: the `LoggingFormat` builder is append-only and order-preserving:
starting from `new` (the empty token list), any sequence of `append_handle`,
`append_args`, `append_output` and `append_string` calls produces exactly
the corresponding tokens in call order; and rendering a set format
concatenates the resolved text of each of its tokens in that sequence. -/
theorem logging_format_append_only_render (A R P : Type)
    (c : LoggedCallable A R P) (display : R → String)
    (ops : List AppendOp) (fmt : LoggingFormat)
    (hfmt : c.logging_format = some fmt) :
    (applyAppendOps LoggingFormat.new ops).logging_format = ops.map AppendOp.token
    ∧ c.generate_log display
        = (fmt.logging_format.map (c.resolveToken display)).foldr (· ++ ·) "" := by
  constructor
  · simpa [LoggingFormat.new] using applyAppendOps_logging_format ops LoggingFormat.new
  · rw [LoggedCallable.generate_log, hfmt]
    simpa using foldl_append_eq_concat (c.resolveToken display) fmt.logging_format ""

/-- Witness for C10 at a concrete builder-call sequence and a logged
callable carrying the resulting format. -/
theorem logging_format_append_only_render_witness :
    (applyAppendOps LoggingFormat.new
        [AppendOp.opString "call ", AppendOp.opHandle, AppendOp.opArgs,
         AppendOp.opOutput]).logging_format
      = [AppendOp.opString "call ", AppendOp.opHandle, AppendOp.opArgs,
         AppendOp.opOutput].map AppendOp.token
    ∧ ({ loggedEx with
          logging_format := some (((LoggingFormat.new.append_string
            "call ").append_handle.append_args.append_output) : LoggingFormat)
        } : LoggedCallable Nat Nat Unit).generate_log toString
      = (((LoggingFormat.new.append_string
            "call ").append_handle.append_args.append_output).logging_format.map
          (({ loggedEx with
              logging_format := some (((LoggingFormat.new.append_string
                "call ").append_handle.append_args.append_output) : LoggingFormat)
            } : LoggedCallable Nat Nat Unit).resolveToken toString)).foldr (· ++ ·) "" :=
  logging_format_append_only_render Nat Nat Unit
    { loggedEx with
      logging_format := some (((LoggingFormat.new.append_string
        "call ").append_handle.append_args.append_output) : LoggingFormat) }
    toString
    [AppendOp.opString "call ", AppendOp.opHandle, AppendOp.opArgs,
     AppendOp.opOutput]
    ((LoggingFormat.new.append_string "call ").append_handle.append_args.append_output)
    rfl

end Running
